import Mathlib

/-!
Verification of the DeepSpeed AIO trampoline layer
(`csrc/aio/py_lib/trampoline.h` and `csrc/aio/py_lib/py_ds_aio.cpp`).

The embedding models the `Trampoline` class as a state record holding the
raw `device` and `handle` pointers (an `Option Nat` address each), together
with an explicit heap that records which device objects are live and which
dynamic-module handles are open.  The dynamic-loading environment (`dlopen`
and `dlsym` outcomes, and the configuration each created backend reports)
is a parameter `Env`.  Operations append forwarded backend calls to an
event list and error messages to a `cerr` list, exactly where the source
calls the backend or prints to `std::cerr`.
-/

namespace DSAio

/-- Outcome of attempting to load a backend module at a given path:
`dlopen` fails, `dlopen` succeeds but `dlsym "create_device"` fails,
or both succeed. -/
inductive DlOutcome
  | openFail
  | symFail
  | ok
deriving DecidableEq

/-- Read-only configuration a loaded backend reports
(`deepspeed_aio_base.h` query surface). -/
structure DevConf where
  block_size : Int
  queue_depth : Int
  single_submit : Bool
  overlap_events : Bool
  thread_count : Int
deriving DecidableEq

/-- The ambient dynamic-loading environment: the process working directory
(`std::filesystem::current_path()`), the outcome of loading the module at a
given path, and the configuration each created device instance reports. -/
structure Env where
  cwd : String
  outcome : String → DlOutcome
  conf : Nat → DevConf

/-- Path concatenation, modelling `std::filesystem::path::operator/`. -/
def pathJoin (a b : String) : String := a ++ "/" ++ b

/-- Source trampoline.h line 29: the plugins directory
`current_path() / "deepspeed" / "ops" / "plugins"`. -/
def soDirectory (cwd : String) : String :=
  pathJoin (pathJoin (pathJoin cwd "deepspeed") "ops") "plugins"

/-- Source trampoline.h line 33: `so_directory / (device_type + "_op.so")`. -/
def libPath (cwd device_type : String) : String :=
  pathJoin (soDirectory cwd) (device_type ++ "_op.so")

/-- The heap: a fresh-address supply, the addresses of live (allocated,
not yet deleted) device objects, and the open dynamic-module handles. -/
structure Heap where
  nextId : Nat
  liveDev : List Nat
  liveMod : List Nat
deriving DecidableEq

/-- One argument of a forwarded backend call; tensors and buffers are
opaque identifiers. -/
inductive Arg
  | nat (n : Nat)
  | str (s : String)
  | bool (b : Bool)
  | tensor (t : Nat)
deriving DecidableEq

/-- A call forwarded to a backend device instance: the device address, the
operation name and its arguments. -/
structure Event where
  dev : Nat
  op : String
  args : List Arg
deriving DecidableEq

/-- The observable state of one `Trampoline` object: its `device` and
`handle` pointer fields, the heap, and the accumulated `std::cerr` output
and forwarded backend calls. -/
structure TState where
  device : Option Nat
  handle : Option Nat
  heap : Heap
  cerr : List String
  events : List Event
deriving DecidableEq

/-- Source trampoline.h lines 18-26 (and 225-226): `if (device) delete
device;` then `if (handle) dlclose(handle);`.  Only the heap changes; the
pointer fields are NOT cleared by this code. -/
def releaseHeap (s : TState) : Heap :=
  let h1 := match s.device with
    | some a => { s.heap with liveDev := s.heap.liveDev.erase a }
    | none => s.heap
  match s.handle with
  | some m => { h1 with liveMod := h1.liveMod.erase m }
  | none => h1

/-- Source trampoline.h lines 17-63, `Trampoline::load_device`, followed
step by step: delete the old device object and close the old module handle
(pointers left as they were), compute the library path, `dlopen` it
(assigning the result to `handle`), on success `dlsym` the
`create_device` factory; on `dlsym` failure close the just-opened module
and null the handle; on full success create the device instance and store
its address in `device`. -/
def loadDevice (env : Env) (device_type : String) (s : TState) : TState :=
  let h2 := releaseHeap s
  let lib := libPath env.cwd device_type
  match env.outcome lib with
  | DlOutcome.openFail =>
      { s with heap := h2, handle := none,
               cerr := s.cerr ++ ["Cannot open library: " ++ lib] }
  | DlOutcome.symFail =>
      let m := h2.nextId
      let hOpen := { h2 with nextId := m + 1, liveMod := m :: h2.liveMod }
      let hClosed := { hOpen with liveMod := hOpen.liveMod.erase m }
      { s with heap := hClosed, handle := none,
               cerr := s.cerr ++ ["Cannot load symbol create_device"] }
  | DlOutcome.ok =>
      let m := h2.nextId
      let hOpen := { h2 with nextId := m + 1, liveMod := m :: h2.liveMod }
      let d := hOpen.nextId
      let hDev := { hOpen with nextId := d + 1, liveDev := d :: hOpen.liveDev }
      { s with device := some d, handle := some m, heap := hDev }

/-- A trampoline object as first initialized (both pointers null, empty
heap), before the constructor body runs `load_device`. -/
def initState : TState :=
  { device := none, handle := none,
    heap := { nextId := 0, liveDev := [], liveMod := [] },
    cerr := [], events := [] }

/-- Source trampoline.h lines 11-15: the constructor nulls both pointers
and then calls `load_device(device_type)`. -/
def mkTrampoline (env : Env) (device_type : String) : TState :=
  loadDevice env device_type initState

/-- Source trampoline.h lines 223-227: the destructor deletes the device
object and closes the module handle when the pointers are non-null. -/
def destruct (s : TState) : TState :=
  { s with heap := releaseHeap s }

/-- The caller-visible return value of one trampoline operation, as seen
through the binding layer: nothing (`void`), an `int`, or a `bool`. -/
inductive RetVal
  | unit
  | int (i : Int)
  | bool (b : Bool)
deriving DecidableEq

/-- Whether a caller-visible return value is an integer. -/
def RetVal.isInt : RetVal → Bool
  | RetVal.int _ => true
  | _ => false

/-- The forwarding operation surface of the trampoline, source
trampoline.h lines 65-221 (everything except `load_device` and the
destructor). -/
inductive Op
  | aio_read (buf : Nat) (file : String) (validate : Bool)
  | aio_write (buf : Nat) (file : String) (validate : Bool)
  | deepspeed_memcpy (dest : Nat) (src : Nat)
  | get_block_size
  | get_queue_depth
  | get_single_submit
  | get_overlap_events
  | get_thread_count
  | read (buf : Nat) (file : String) (validate : Bool)
  | write (buf : Nat) (file : String) (validate : Bool)
  | pread (buf : Nat) (file : String) (validate : Bool) (async : Bool)
  | pwrite (buf : Nat) (file : String) (validate : Bool) (async : Bool)
  | sync_pread (buf : Nat) (file : String)
  | sync_pwrite (buf : Nat) (file : String)
  | async_pread (buf : Nat) (file : String)
  | async_pwrite (buf : Nat) (file : String)
  | new_cpu_locked_tensor (num_elem : Nat) (example_tensor : Nat)
  | free_cpu_locked_tensor (tensor : Nat)
  | wait
deriving DecidableEq

/-- The operation name as it appears in the source's error messages
("No device loaded for <name>"). -/
def Op.name : Op → String
  | Op.aio_read _ _ _ => "aio_read"
  | Op.aio_write _ _ _ => "aio_write"
  | Op.deepspeed_memcpy _ _ => "deepspeed_memcpy"
  | Op.get_block_size => "get_block_size"
  | Op.get_queue_depth => "get_queue_depth"
  | Op.get_single_submit => "get_single_submit"
  | Op.get_overlap_events => "get_overlap_events"
  | Op.get_thread_count => "get_thread_count"
  | Op.read _ _ _ => "read"
  | Op.write _ _ _ => "write"
  | Op.pread _ _ _ _ => "pread"
  | Op.pwrite _ _ _ _ => "pwrite"
  | Op.sync_pread _ _ => "sync_pread"
  | Op.sync_pwrite _ _ => "sync_pwrite"
  | Op.async_pread _ _ => "async_pread"
  | Op.async_pwrite _ _ => "async_pwrite"
  | Op.new_cpu_locked_tensor _ _ => "new_cpu_locked_tensor"
  | Op.free_cpu_locked_tensor _ => "free_cpu_locked_tensor"
  | Op.wait => "wait"

/-- The arguments the trampoline passes through verbatim to the backend. -/
def Op.args : Op → List Arg
  | Op.aio_read b f v => [Arg.tensor b, Arg.str f, Arg.bool v]
  | Op.aio_write b f v => [Arg.tensor b, Arg.str f, Arg.bool v]
  | Op.deepspeed_memcpy d s => [Arg.tensor d, Arg.tensor s]
  | Op.get_block_size => []
  | Op.get_queue_depth => []
  | Op.get_single_submit => []
  | Op.get_overlap_events => []
  | Op.get_thread_count => []
  | Op.read b f v => [Arg.tensor b, Arg.str f, Arg.bool v]
  | Op.write b f v => [Arg.tensor b, Arg.str f, Arg.bool v]
  | Op.pread b f v a => [Arg.tensor b, Arg.str f, Arg.bool v, Arg.bool a]
  | Op.pwrite b f v a => [Arg.tensor b, Arg.str f, Arg.bool v, Arg.bool a]
  | Op.sync_pread b f => [Arg.tensor b, Arg.str f]
  | Op.sync_pwrite b f => [Arg.tensor b, Arg.str f]
  | Op.async_pread b f => [Arg.tensor b, Arg.str f]
  | Op.async_pwrite b f => [Arg.tensor b, Arg.str f]
  | Op.new_cpu_locked_tensor n e => [Arg.nat n, Arg.tensor e]
  | Op.free_cpu_locked_tensor t => [Arg.tensor t]
  | Op.wait => []

/-- What the backend at address `a` returns for an operation: the device's
configuration for the query getters, nothing for the void operations
(every non-query method of trampoline.h lines 65-221 returns `void`). -/
def backendResult (env : Env) (a : Nat) : Op → RetVal
  | Op.get_block_size => RetVal.int (env.conf a).block_size
  | Op.get_queue_depth => RetVal.int (env.conf a).queue_depth
  | Op.get_single_submit => RetVal.bool (env.conf a).single_submit
  | Op.get_overlap_events => RetVal.bool (env.conf a).overlap_events
  | Op.get_thread_count => RetVal.int (env.conf a).thread_count
  | _ => RetVal.unit

/-- What each operation returns when `device` is null: `-1` for the int
queries (trampoline.h lines 96, 105, 132), `false` for the bool queries
(lines 114, 123), and nothing for the void operations. -/
def noDeviceResult : Op → RetVal
  | Op.get_block_size => RetVal.int (-1)
  | Op.get_queue_depth => RetVal.int (-1)
  | Op.get_single_submit => RetVal.bool false
  | Op.get_overlap_events => RetVal.bool false
  | Op.get_thread_count => RetVal.int (-1)
  | _ => RetVal.unit

/-- Source trampoline.h lines 65-221: every operation checks
`if (device)`; when the pointer is non-null it forwards the call with its
arguments to the device at that address and returns the backend's result;
when it is null it prints "No device loaded for <name>" to `std::cerr`,
performs nothing, and returns the sentinel. -/
def runOp (env : Env) (op : Op) (s : TState) : TState × RetVal :=
  match s.device with
  | some a =>
      ({ s with events := s.events ++ [{ dev := a, op := op.name, args := op.args }] },
       backendResult env a op)
  | none =>
      ({ s with cerr := s.cerr ++ ["No device loaded for " ++ op.name] },
       noDeviceResult op)

/-- A trampoline API call: either `load_device` or one forwarding
operation. -/
inductive Cmd
  | load (device_type : String)
  | call (op : Op)

/-- All trampoline states visited while executing a list of API calls,
the starting state included. -/
def statesOf (env : Env) : List Cmd → TState → List TState
  | [], s => [s]
  | Cmd.load dt :: cs, s => s :: statesOf env cs (loadDevice env dt s)
  | Cmd.call op :: cs, s => s :: statesOf env cs (runOp env op s).1

/-- Heap shape invariant: the live device objects are exactly those the
`device` pointer designates (or none at all), and likewise for open module
handles and the `handle` pointer. -/
def heapInv (s : TState) : Prop :=
  (s.heap.liveDev = [] ∨ s.heap.liveDev = s.device.toList) ∧
  (s.heap.liveMod = [] ∨ s.heap.liveMod = s.handle.toList)

/-- Pointer-cleanliness invariant: `device` and `handle` are both null or
both non-null. -/
def ptrInv (s : TState) : Prop :=
  (s.device = none ∧ s.handle = none) ∨ (s.device.isSome ∧ s.handle.isSome)

instance (s : TState) : Decidable (ptrInv s) := by
  unfold ptrInv
  infer_instance

/-!
Model of `DeepSpeedAIOTrampoline` from `py_ds_aio.cpp`.  Its
`load_device` compares the device-type string against "nvme" and, on a
match, allocates a new `NVMEDevice` WITHOUT deleting any previously held
device; otherwise it prints "Unknown device type".  Its constructor calls
`load_device("nvme")`; its destructor deletes the held device.
-/

/-- Observable state of one `DeepSpeedAIOTrampoline` object. -/
structure DSState where
  device : Option Nat
  nextId : Nat
  liveDev : List Nat
  cerr : List String
  events : List Event
deriving DecidableEq

/-- Source py_ds_aio.cpp lines 30-36: `DeepSpeedAIOTrampoline::load_device`.
For "nvme" it assigns `device = new NVMEDevice()` (the previous device, if
any, is not deleted); for any other string it prints an error. -/
def dsLoadDevice (device_type : String) (s : DSState) : DSState :=
  if device_type = "nvme" then
    { s with device := some s.nextId, nextId := s.nextId + 1,
             liveDev := s.nextId :: s.liveDev }
  else
    { s with cerr := s.cerr ++ ["Unknown device type: " ++ device_type] }

/-- Source py_ds_aio.cpp lines 26-28: the default constructor nulls
`device` and calls `load_device("nvme")`. -/
def dsInit : DSState :=
  dsLoadDevice "nvme"
    { device := none, nextId := 0, liveDev := [], cerr := [], events := [] }

/-- Source py_ds_aio.cpp lines 195-199: the destructor deletes the held
device when non-null. -/
def dsDestruct (s : DSState) : DSState :=
  match s.device with
  | some a => { s with liveDev := s.liveDev.erase a }
  | none => s

/-- Source py_ds_aio.cpp lines 38-193: each operation forwards to the held
device when non-null and otherwise prints "No device loaded". -/
def dsRunOp (op : Op) (s : DSState) : DSState :=
  match s.device with
  | some a =>
      { s with events := s.events ++ [{ dev := a, op := op.name, args := op.args }] }
  | none =>
      { s with cerr := s.cerr ++ ["No device loaded"] }

/-- Source py_ds_aio.cpp lines 207-210: the module-level `aio_write`
builds a fresh `DeepSpeedAIOTrampoline`, calls `aio_write` on it, and
destroys it before returning. -/
def standalone_aio_write (buf : Nat) (file : String) (validate : Bool) : DSState :=
  dsDestruct (dsRunOp (Op.aio_write buf file validate) dsInit)

/-- Source py_ds_aio.cpp lines 212-215: the module-level `aio_read`. -/
def standalone_aio_read (buf : Nat) (file : String) (validate : Bool) : DSState :=
  dsDestruct (dsRunOp (Op.aio_read buf file validate) dsInit)

/-- Source py_ds_aio.cpp lines 217-220: the module-level
`deepspeed_memcpy`. -/
def standalone_deepspeed_memcpy (dest : Nat) (src : Nat) : DSState :=
  dsDestruct (dsRunOp (Op.deepspeed_memcpy dest src) dsInit)

/-- Source py_ds_aio.cpp lines 222-225: the module-level `load_device`
builds a fresh trampoline (whose constructor already loaded "nvme"), calls
`load_device(device_type)` on it, and destroys it before returning. -/
def standalone_load_device (device_type : String) : DSState :=
  dsDestruct (dsLoadDevice device_type dsInit)

/-- Concrete environment: only the module for device type "x" resolves
and loads successfully; everything else fails at `dlopen`. -/
def env0 : Env :=
  { cwd := "",
    outcome := fun p => if p = libPath "" "x" then DlOutcome.ok else DlOutcome.openFail,
    conf := fun _ => { block_size := 512, queue_depth := 8, single_submit := false,
                       overlap_events := true, thread_count := 1 } }

/-- Concrete environment in which every module loads successfully and
every backend legitimately reports `false` for both boolean queries. -/
def envOk : Env :=
  { cwd := "",
    outcome := fun _ => DlOutcome.ok,
    conf := fun _ => { block_size := 0, queue_depth := 0, single_submit := false,
                       overlap_events := false, thread_count := 0 } }

/-- The trampoline after a successful `load_device("x")` under `env0`:
device object 1 live, module handle 0 open. -/
def sX : TState := loadDevice env0 "x" initState

/-- The trampoline after the successful load of "x" followed by a failed
`load_device("null")` (no module for "null" exists under `env0`). -/
def sNull : TState := loadDevice env0 "null" sX

/-- The trampoline after a successful load under `envOk` (a backend whose
boolean configuration flags are both `false`). -/
def sOk : TState := loadDevice envOk "x" initState

end DSAio

namespace DSAio

theorem releaseHeap_empties (s : TState) (h : heapInv s) :
    (releaseHeap s).liveDev = [] ∧ (releaseHeap s).liveMod = [] ∧
    (releaseHeap s).nextId = s.heap.nextId := by
  obtain ⟨hd, hm⟩ := h
  cases hD : s.device with
  | none =>
      cases hH : s.handle with
      | none =>
          refine ⟨?_, ?_, ?_⟩ <;> simp [releaseHeap, hD, hH]
          · rcases hd with hd | hd
            · exact hd
            · simpa [hD] using hd
          · rcases hm with hm | hm
            · exact hm
            · simpa [hH] using hm
      | some m =>
          refine ⟨?_, ?_, ?_⟩ <;> simp [releaseHeap, hD, hH]
          · rcases hd with hd | hd
            · exact hd
            · simpa [hD] using hd
          · rcases hm with hm | hm
            · simp [hm]
            · simp [hH] at hm
              simp [hm]
  | some a =>
      cases hH : s.handle with
      | none =>
          refine ⟨?_, ?_, ?_⟩ <;> simp [releaseHeap, hD, hH]
          · rcases hd with hd | hd
            · simp [hd]
            · simp [hD] at hd
              simp [hd]
          · rcases hm with hm | hm
            · exact hm
            · simpa [hH] using hm
      | some m =>
          refine ⟨?_, ?_, ?_⟩ <;> simp [releaseHeap, hD, hH]
          · rcases hd with hd | hd
            · simp [hd]
            · simp [hD] at hd
              simp [hd]
          · rcases hm with hm | hm
            · simp [hm]
            · simp [hH] at hm
              simp [hm]

theorem heapInv_load (env : Env) (dt : String) (s : TState) (h : heapInv s) :
    heapInv (loadDevice env dt s) := by
  obtain ⟨hDev, hMod, _⟩ := releaseHeap_empties s h
  cases ho : env.outcome (libPath env.cwd dt) with
  | openFail =>
      constructor <;> simp [loadDevice, ho, hDev, hMod]
  | symFail =>
      constructor <;> simp [loadDevice, ho, hDev, hMod]
  | ok =>
      constructor <;> simp [loadDevice, ho, hDev, hMod]

theorem heapInv_runOp (env : Env) (op : Op) (s : TState) (h : heapInv s) :
    heapInv (runOp env op s).1 := by
  cases hD : s.device with
  | none => simpa [runOp, hD, heapInv] using h
  | some a => simpa [runOp, hD, heapInv] using h

theorem heapInv_init : heapInv initState := by
  constructor <;> simp [initState]

theorem heapInv_statesOf (env : Env) :
    ∀ (cs : List Cmd) (s : TState), heapInv s →
      ∀ t ∈ statesOf env cs s, heapInv t := by
  intro cs
  induction cs with
  | nil =>
      intro s hs t ht
      simp [statesOf] at ht
      simpa [ht] using hs
  | cons c cs ih =>
      intro s hs t ht
      cases c with
      | load dt =>
          simp [statesOf] at ht
          rcases ht with rfl | ht
          · exact hs
          · exact ih _ (heapInv_load env dt s hs) t ht
      | call op =>
          simp [statesOf] at ht
          rcases ht with rfl | ht
          · exact hs
          · exact ih _ (heapInv_runOp env op s hs) t ht

theorem heapInv_len (s : TState) (h : heapInv s) :
    s.heap.liveDev.length ≤ 1 ∧ s.heap.liveMod.length ≤ 1 := by
  obtain ⟨hd, hm⟩ := h
  constructor
  · rcases hd with hd | hd
    · simp [hd]
    · rw [hd]
      cases s.device <;> simp
  · rcases hm with hm | hm
    · simp [hm]
    · rw [hm]
      cases s.handle <;> simp

/-- C1 (code_bug): the code contradicts the claimed load ordering.  With a
device loaded ("x": device object 1 live, module handle 0 open), a failed
`load_device("null")` does not leave the prior state unchanged: the old
device object is deleted and the old module handle closed BEFORE the open
attempt, and afterwards the `device` pointer still holds the freed address
1 (a dangling reference) while `handle` is null. -/
theorem failed_load_destroys_prior_state :
    sX.device = some 1 ∧ sX.heap.liveDev = [1] ∧
    sX.handle = some 0 ∧ sX.heap.liveMod = [0] ∧
    sNull.device = some 1 ∧ sNull.heap.liveDev = [] ∧
    sNull.handle = none ∧ sNull.heap.liveMod = [] := by
  decide

/-- C2: any forwarding operation invoked while the `device` pointer is
null appends exactly the "No device loaded for <name>" message to cerr,
changes nothing else (no event is forwarded, the heap and both pointers
are untouched), and returns the no-device sentinel. -/
theorem no_device_ops_report_and_do_nothing (env : Env) (op : Op) (s : TState)
    (h : s.device = none) :
    (runOp env op s).1 = { s with cerr := s.cerr ++ ["No device loaded for " ++ op.name] } ∧
    (runOp env op s).2 = noDeviceResult op := by
  constructor <;> simp [runOp, h]

theorem no_device_ops_report_and_do_nothing_w :
    (runOp env0 Op.wait initState).1 =
      { initState with cerr := initState.cerr ++ ["No device loaded for " ++ Op.wait.name] } ∧
    (runOp env0 Op.wait initState).2 = noDeviceResult Op.wait :=
  no_device_ops_report_and_do_nothing env0 Op.wait initState rfl

/-- C3 counterexample: failures are not reported to the caller as a value
distinguishable by kind.  The no-device failure of `aio_read` produces the
same caller-visible value (`void`) as a successful forwarded `aio_read`,
and the no-device failure of `get_single_submit` produces the same value
(`false`) as a loaded backend legitimately reporting `false`. -/
theorem failure_value_not_distinguishable :
    initState.device = none ∧ sX.device = some 1 ∧
    (runOp env0 (Op.aio_read 0 "f" false) initState).2 =
      (runOp env0 (Op.aio_read 0 "f" false) sX).2 ∧
    (runOp env0 Op.get_single_submit initState).2 =
      (runOp env0 Op.get_single_submit sX).2 := by
  decide

/-- C3 (amended): every failure the trampoline layer handles is
recoverable and never process-fatal — a no-device failure only appends a
console message and returns a sentinel, a module-open failure only appends
a console message, and a later `load_device` of a resolvable type succeeds
— but the report is a printed console message, not a distinguishable
caller value. -/
theorem failures_recoverable_console_only :
    (∀ (env : Env) (op : Op) (s : TState), s.device = none →
        (runOp env op s).1.cerr = s.cerr ++ ["No device loaded for " ++ op.name] ∧
        (runOp env op s).1.events = s.events ∧
        (runOp env op s).2 = noDeviceResult op) ∧
    (∀ (env : Env) (dt : String) (s : TState),
        env.outcome (libPath env.cwd dt) = DlOutcome.openFail →
        (loadDevice env dt s).cerr =
          s.cerr ++ ["Cannot open library: " ++ libPath env.cwd dt]) ∧
    (∀ (env : Env) (dt : String) (s : TState),
        env.outcome (libPath env.cwd dt) = DlOutcome.ok →
        (loadDevice env dt s).device.isSome = true) := by
  refine ⟨?_, ?_, ?_⟩
  · intro env op s h
    refine ⟨?_, ?_, ?_⟩ <;> simp [runOp, h]
  · intro env dt s h
    simp [loadDevice, h]
  · intro env dt s h
    simp [loadDevice, h]

theorem failures_recoverable_console_only_w :
    ((runOp env0 Op.get_block_size initState).1.cerr =
        initState.cerr ++ ["No device loaded for " ++ Op.get_block_size.name] ∧
      (runOp env0 Op.get_block_size initState).1.events = initState.events ∧
      (runOp env0 Op.get_block_size initState).2 = noDeviceResult Op.get_block_size) ∧
    (loadDevice env0 "null" initState).cerr =
      initState.cerr ++ ["Cannot open library: " ++ libPath env0.cwd "null"] ∧
    (loadDevice env0 "x" initState).device.isSome = true :=
  ⟨failures_recoverable_console_only.1 env0 Op.get_block_size initState rfl,
   failures_recoverable_console_only.2.1 env0 "null" initState (by decide),
   failures_recoverable_console_only.2.2 env0 "x" initState (by decide)⟩

/-- C4: a successful `load_device("x")` (device 1, module 0) followed by a
successful `load_device("y")` leaves exactly one active pair — the "y"
backend (device 3, module 2) — with the "x" device object deleted and its
module handle closed; and along every sequence of trampoline API calls
from the initial state, at most one device object is live and at most one
module handle is open at any time. -/
theorem switch_leaves_single_active_pair (env : Env) (x y : String)
    (hx : env.outcome (libPath env.cwd x) = DlOutcome.ok)
    (hy : env.outcome (libPath env.cwd y) = DlOutcome.ok) :
    ((loadDevice env x initState).device = some 1 ∧
     (loadDevice env x initState).handle = some 0 ∧
     (loadDevice env y (loadDevice env x initState)).device = some 3 ∧
     (loadDevice env y (loadDevice env x initState)).handle = some 2 ∧
     (loadDevice env y (loadDevice env x initState)).heap.liveDev = [3] ∧
     (loadDevice env y (loadDevice env x initState)).heap.liveMod = [2] ∧
     1 ∉ (loadDevice env y (loadDevice env x initState)).heap.liveDev ∧
     0 ∉ (loadDevice env y (loadDevice env x initState)).heap.liveMod) ∧
    (∀ (cs : List Cmd), ∀ t ∈ statesOf env cs initState,
        t.heap.liveDev.length ≤ 1 ∧ t.heap.liveMod.length ≤ 1) := by
  constructor
  · have h1 : loadDevice env x initState =
        { device := some 1, handle := some 0,
          heap := { nextId := 2, liveDev := [1], liveMod := [0] },
          cerr := [], events := [] } := by
      simp [loadDevice, releaseHeap, initState, hx]
    rw [h1]
    simp [loadDevice, releaseHeap, hy]
  · intro cs t ht
    exact heapInv_len t (heapInv_statesOf env cs initState heapInv_init t ht)

theorem switch_leaves_single_active_pair_w :
    (((loadDevice envOk "x" initState).device = some 1 ∧
      (loadDevice envOk "x" initState).handle = some 0 ∧
      (loadDevice envOk "y" (loadDevice envOk "x" initState)).device = some 3 ∧
      (loadDevice envOk "y" (loadDevice envOk "x" initState)).handle = some 2 ∧
      (loadDevice envOk "y" (loadDevice envOk "x" initState)).heap.liveDev = [3] ∧
      (loadDevice envOk "y" (loadDevice envOk "x" initState)).heap.liveMod = [2] ∧
      1 ∉ (loadDevice envOk "y" (loadDevice envOk "x" initState)).heap.liveDev ∧
      0 ∉ (loadDevice envOk "y" (loadDevice envOk "x" initState)).heap.liveMod) ∧
     (∀ (cs : List Cmd), ∀ t ∈ statesOf envOk cs initState,
        t.heap.liveDev.length ≤ 1 ∧ t.heap.liveMod.length ≤ 1)) :=
  switch_leaves_single_active_pair envOk "x" "y" rfl rfl

/-- C5: for every working directory and every device-type identifier
string, the computed module path is exactly the fixed plugins root
(cwd/deepspeed/ops/plugins) joined with the identifier followed by the
fixed suffix "_op.so"; the computation is a total pure string function,
defined for unknown identifiers as well. -/
theorem resolver_fixed_path_convention (cwd s : String) :
    libPath cwd s = soDirectory cwd ++ "/" ++ s ++ "_op.so" ∧
    soDirectory cwd = cwd ++ "/deepspeed/ops/plugins" ∧
    libPath cwd s = cwd ++ "/deepspeed/ops/plugins/" ++ s ++ "_op.so" := by
  refine ⟨?_, ?_, ?_⟩ <;>
    simp [libPath, soDirectory, pathJoin, String.append_assoc]

/-- C6 counterexample: `wait()` with an active device does not return a
completed-operation count to the caller.  In the state after a successful
load (device 1 active and live), the caller-visible result of `wait` is
`void`, not an integer. -/
theorem wait_returns_no_count :
    sX.device = some 1 ∧ 1 ∈ sX.heap.liveDev ∧
    (runOp env0 Op.wait sX).2 = RetVal.unit ∧
    RetVal.isInt (runOp env0 Op.wait sX).2 = false := by
  decide

/-- C6 (amended): `wait()` with an active device forwards the call to
that device (which owns the blocking-until-complete behavior) and returns
no value; with no active device it prints "No device loaded for wait",
forwards nothing and returns no value. -/
theorem wait_forwards_and_returns_void :
    (∀ (env : Env) (s : TState) (a : Nat), s.device = some a →
        (runOp env Op.wait s).1.events =
          s.events ++ [{ dev := a, op := "wait", args := [] }] ∧
        (runOp env Op.wait s).2 = RetVal.unit) ∧
    (∀ (env : Env) (s : TState), s.device = none →
        (runOp env Op.wait s).1.cerr = s.cerr ++ ["No device loaded for wait"] ∧
        (runOp env Op.wait s).1.events = s.events ∧
        (runOp env Op.wait s).2 = RetVal.unit) := by
  constructor
  · intro env s a h
    constructor <;> simp [runOp, h, Op.name, Op.args, backendResult]
  · intro env s h
    refine ⟨?_, ?_, ?_⟩ <;> simp [runOp, h, Op.name, noDeviceResult]

theorem wait_forwards_and_returns_void_w :
    ((runOp env0 Op.wait sX).1.events =
        sX.events ++ [{ dev := 1, op := "wait", args := [] }] ∧
      (runOp env0 Op.wait sX).2 = RetVal.unit) ∧
    ((runOp env0 Op.wait initState).1.cerr =
        initState.cerr ++ ["No device loaded for wait"] ∧
      (runOp env0 Op.wait initState).1.events = initState.events ∧
      (runOp env0 Op.wait initState).2 = RetVal.unit) :=
  ⟨wait_forwards_and_returns_void.1 env0 sX 1 (by decide),
   wait_forwards_and_returns_void.2 env0 initState rfl⟩

/-- C7 counterexample: `new_cpu_locked_tensor(count, example)` with an
active device does not return the allocated buffer: the caller-visible
result is `void`. -/
theorem new_locked_tensor_returns_no_buffer :
    sX.device = some 1 ∧
    (runOp env0 (Op.new_cpu_locked_tensor 4 9) sX).2 = RetVal.unit := by
  decide

/-- C7 (amended): `new_cpu_locked_tensor(count, example)` with an active
device forwards the allocation request, with the element count and the
example tensor, to that device — but returns nothing to the caller. -/
theorem new_locked_tensor_delegates_void (env : Env) (s : TState) (a num ex : Nat)
    (h : s.device = some a) :
    (runOp env (Op.new_cpu_locked_tensor num ex) s).1.events =
      s.events ++ [{ dev := a, op := "new_cpu_locked_tensor",
                     args := [Arg.nat num, Arg.tensor ex] }] ∧
    (runOp env (Op.new_cpu_locked_tensor num ex) s).2 = RetVal.unit := by
  constructor <;> simp [runOp, h, Op.name, Op.args, backendResult]

theorem new_locked_tensor_delegates_void_w :
    (runOp env0 (Op.new_cpu_locked_tensor 4 9) sX).1.events =
      sX.events ++ [{ dev := 1, op := "new_cpu_locked_tensor",
                      args := [Arg.nat 4, Arg.tensor 9] }] ∧
    (runOp env0 (Op.new_cpu_locked_tensor 4 9) sX).2 = RetVal.unit :=
  new_locked_tensor_delegates_void env0 sX 1 4 9 (by decide)

/-- C8 counterexample: the both-null-or-both-non-null pointer invariant is
broken by a failed `load_device` issued while a device is loaded: after
the successful load of "x" the invariant holds, and after the subsequent
failed load of "null" the `device` pointer is non-null (dangling) while
`handle` is null. -/
theorem ptr_invariant_broken_by_failed_load :
    ptrInv sX ∧ ¬ ptrInv sNull := by
  decide

/-- C8 (amended): the both-null-or-both-non-null invariant holds
initially, is preserved by every forwarding operation and by the
destructor, and is preserved by `load_device` whenever no device is
currently loaded or the load fully succeeds — the only violating path is
a failed load issued while a device is loaded. -/
theorem ptr_invariant_preserved_amended :
    ptrInv initState ∧
    (∀ (env : Env) (dt : String) (s : TState), ptrInv s →
        (s.device = none ∨ env.outcome (libPath env.cwd dt) = DlOutcome.ok) →
        ptrInv (loadDevice env dt s)) ∧
    (∀ (env : Env) (op : Op) (s : TState), ptrInv s → ptrInv (runOp env op s).1) ∧
    (∀ s : TState, ptrInv s → ptrInv (destruct s)) := by
  refine ⟨?_, ?_, ?_, ?_⟩
  · simp [ptrInv, initState]
  · intro env dt s _ hcase
    cases ho : env.outcome (libPath env.cwd dt) with
    | openFail =>
        rcases hcase with hD | hok
        · left
          constructor <;> simp [loadDevice, ho, hD]
        · rw [ho] at hok
          exact absurd hok (by simp)
    | symFail =>
        rcases hcase with hD | hok
        · left
          constructor <;> simp [loadDevice, ho, hD]
        · rw [ho] at hok
          exact absurd hok (by simp)
    | ok =>
        right
        constructor <;> simp [loadDevice, ho]
  · intro env op s h
    cases hD : s.device with
    | none => simpa [runOp, hD, ptrInv] using h
    | some a => simpa [runOp, hD, ptrInv] using h
  · intro s h
    simpa [destruct, ptrInv] using h

theorem ptr_invariant_preserved_amended_w :
    ptrInv (loadDevice env0 "x" initState) ∧
    ptrInv (runOp env0 Op.wait initState).1 ∧
    ptrInv (destruct initState) :=
  ⟨ptr_invariant_preserved_amended.2.1 env0 "x" initState
      ptr_invariant_preserved_amended.1 (Or.inl rfl),
   ptr_invariant_preserved_amended.2.2.1 env0 Op.wait initState
      ptr_invariant_preserved_amended.1,
   ptr_invariant_preserved_amended.2.2.2 initState
      ptr_invariant_preserved_amended.1⟩

/-- C9: with the `device` pointer null, the int queries return the
sentinel -1 and the bool queries return `false`; and under `envOk` a
loaded backend legitimately reports `false` for both boolean flags, so the
no-device answer of the boolean queries coincides with a real backend
answer (not distinguishable from it by return value alone). -/
theorem no_device_query_sentinels (env : Env) (s : TState) (h : s.device = none) :
    (runOp env Op.get_block_size s).2 = RetVal.int (-1) ∧
    (runOp env Op.get_queue_depth s).2 = RetVal.int (-1) ∧
    (runOp env Op.get_thread_count s).2 = RetVal.int (-1) ∧
    (runOp env Op.get_single_submit s).2 = RetVal.bool false ∧
    (runOp env Op.get_overlap_events s).2 = RetVal.bool false ∧
    (sOk.device = some 1 ∧
      (runOp envOk Op.get_single_submit sOk).2 =
        (runOp envOk Op.get_single_submit initState).2 ∧
      (runOp envOk Op.get_overlap_events sOk).2 =
        (runOp envOk Op.get_overlap_events initState).2) := by
  refine ⟨?_, ?_, ?_, ?_, ?_, ?_⟩
  · simp [runOp, h, noDeviceResult]
  · simp [runOp, h, noDeviceResult]
  · simp [runOp, h, noDeviceResult]
  · simp [runOp, h, noDeviceResult]
  · simp [runOp, h, noDeviceResult]
  · decide

theorem no_device_query_sentinels_w :
    (runOp envOk Op.get_block_size initState).2 = RetVal.int (-1) ∧
    (runOp envOk Op.get_queue_depth initState).2 = RetVal.int (-1) ∧
    (runOp envOk Op.get_thread_count initState).2 = RetVal.int (-1) ∧
    (runOp envOk Op.get_single_submit initState).2 = RetVal.bool false ∧
    (runOp envOk Op.get_overlap_events initState).2 = RetVal.bool false ∧
    (sOk.device = some 1 ∧
      (runOp envOk Op.get_single_submit sOk).2 =
        (runOp envOk Op.get_single_submit initState).2 ∧
      (runOp envOk Op.get_overlap_events sOk).2 =
        (runOp envOk Op.get_overlap_events initState).2) :=
  no_device_query_sentinels envOk initState rfl

/-- C10 counterexample: the standalone `load_device("nvme")` call does
change persistent process state: the constructor-created NVMe device
(object 0) is never deleted — `DeepSpeedAIOTrampoline::load_device`
overwrites the device pointer without freeing the previous device, and the
destructor frees only the replacement — so one leaked allocation survives
the call. -/
theorem standalone_load_device_leaks_ctor_device :
    (standalone_load_device "nvme").liveDev = [0] := by
  decide

/-- C10 (amended): each module-level standalone function builds a fresh
trampoline whose constructor loads "nvme" (device object 0), performs
exactly the one requested operation on it, and runs the destructor before
returning; each call is a fixed function of its arguments, so no call
affects any subsequent one.  The single forwarded call targets device 0
and the instance's device is freed before return, except that standalone
`load_device("nvme")` leaks the constructor-created device. -/
theorem standalone_fresh_instance_per_call :
    (∀ (b : Nat) (f : String) (v : Bool),
        (standalone_aio_read b f v).events =
          [{ dev := 0, op := "aio_read", args := [Arg.tensor b, Arg.str f, Arg.bool v] }] ∧
        (standalone_aio_read b f v).liveDev = []) ∧
    (∀ (b : Nat) (f : String) (v : Bool),
        (standalone_aio_write b f v).events =
          [{ dev := 0, op := "aio_write", args := [Arg.tensor b, Arg.str f, Arg.bool v] }] ∧
        (standalone_aio_write b f v).liveDev = []) ∧
    (∀ (d s : Nat),
        (standalone_deepspeed_memcpy d s).events =
          [{ dev := 0, op := "deepspeed_memcpy", args := [Arg.tensor d, Arg.tensor s] }] ∧
        (standalone_deepspeed_memcpy d s).liveDev = []) ∧
    (∀ dt : String, dt ≠ "nvme" →
        (standalone_load_device dt).events = [] ∧
        (standalone_load_device dt).cerr = ["Unknown device type: " ++ dt] ∧
        (standalone_load_device dt).liveDev = []) ∧
    ((standalone_load_device "nvme").events = [] ∧
      (standalone_load_device "nvme").liveDev = [0]) := by
  refine ⟨?_, ?_, ?_, ?_, ?_⟩
  · intro b f v
    constructor <;>
      simp [standalone_aio_read, dsDestruct, dsRunOp, dsInit, dsLoadDevice, Op.name, Op.args]
  · intro b f v
    constructor <;>
      simp [standalone_aio_write, dsDestruct, dsRunOp, dsInit, dsLoadDevice, Op.name, Op.args]
  · intro d s
    constructor <;>
      simp [standalone_deepspeed_memcpy, dsDestruct, dsRunOp, dsInit, dsLoadDevice,
            Op.name, Op.args]
  · intro dt hdt
    refine ⟨?_, ?_, ?_⟩ <;>
      simp [standalone_load_device, dsDestruct, dsLoadDevice, dsInit, hdt]
  · decide

theorem standalone_fresh_instance_per_call_w :
    (standalone_load_device "null").events = [] ∧
    (standalone_load_device "null").cerr = ["Unknown device type: " ++ "null"] ∧
    (standalone_load_device "null").liveDev = [] :=
  standalone_fresh_instance_per_call.2.2.2.1 "null" (by decide)

end DSAio
